import Mathlib

/-!
Verification of the authenticated task-ownership access-control layer of the
TASK-MASTER repository (FastAPI backend documented in
`BETTER_AUTH_JWT_STATUS.md`, `BETTER_AUTH_SETUP.md` and the query patterns /
model definitions of `specs/001-todo-frontend` data-model, plus the Next.js
frontend under `frontend/`).

The backend data model and operations are shallowly embedded from the Python
source snippets:
  - `Task` / `TaskStatus`        — SQLModel `Task` model (part_013, "SQLModel
    Implementation").
  - `validateTitle`              — pydantic `TaskCreate` / `TaskUpdate`:
    `Field(..., min_length=1, max_length=500)` followed by the
    `title_not_empty` validator (`if not v.strip(): raise ...; return v.strip()`).
  - `getTasks`, `getTask`, `createTask`, `updateTitle`, `updateStatus`,
    `deleteTask`               — the "Query Patterns" section of part_013 and
    the task endpoints of `BETTER_AUTH_JWT_STATUS.md`.
  - `getCurrentUser`             — the JWT verification dependency of
    `BETTER_AUTH_SETUP.md` lines 98-119.
The persistence store is modelled as a `List Task` (rows) resp. a lookup
function `String → Option UserRec` (users table); timestamps as `Nat`.
-/

namespace TaskMaster

/-- Task status enum: `class TaskStatus(str, PyEnum): PENDING; COMPLETED`.
Exactly two values are representable. -/
inductive TaskStatus where
  | pending
  | completed
deriving DecidableEq, Repr

/-- The persisted `Task` row (SQLModel `Task`, part_013): `id`, `title`,
`status`, `user_id` (owner), `created_at`, `updated_at`.  UUIDs are modelled
as strings, timestamps as naturals. -/
structure Task where
  id : String
  title : String
  status : TaskStatus
  user_id : String
  created_at : Nat
  updated_at : Nat
deriving DecidableEq, Repr

/-- Python `str.strip()`: drop whitespace characters from both ends.  A Lean
`String` is a list of characters, mirroring Python's view of `str` as a
character sequence. -/
def pyStrip (s : String) : String :=
  ⟨((s.data.dropWhile Char.isWhitespace).reverse.dropWhile Char.isWhitespace).reverse⟩

/-- Error kinds produced by the task endpoints: pydantic validation failures
(HTTP 422/400 with a field-level message) and the single collapsed
`404 "Task not found"` used both for a missing id and for a row owned by a
different user.  No `Forbidden` outcome is representable, exactly as in the
source, where no task endpoint ever raises a 403. -/
inductive CrudError where
  | validationErr (msg : String)
  | notFound
deriving DecidableEq, Repr

/-- The pydantic `TaskCreate` / `TaskUpdate` title pipeline: field
constraints `min_length=1`, `max_length=500` run on the raw value first, then
the `title_not_empty` validator rejects whitespace-only titles and returns
`v.strip()`. -/
def validateTitle (title : String) : Except String String :=
  if title.length < 1 then
    .error "ensure this value has at least 1 characters"
  else if 500 < title.length then
    .error "ensure this value has at most 500 characters"
  else if pyStrip title = "" then
    .error "Title cannot be empty or whitespace only"
  else
    .ok (pyStrip title)

/-- Embeds `select(Task).where(Task.id == task_id, Task.user_id == current_user_id)`
followed by `.first()`: the single lookup-then-compare step shared by
Get/UpdateTitle/UpdateStatus/Delete. -/
def findOwned (db : List Task) (uid tid : String) : Option Task :=
  db.find? fun t => decide (t.id = tid ∧ t.user_id = uid)

/-- Newest-first comparison used by `order_by(Task.created_at.desc())`:
`taskGE a b` holds when `a` was created no earlier than `b`. -/
def taskGE (a b : Task) : Prop := b.created_at ≤ a.created_at

instance : DecidableRel taskGE := fun a b =>
  inferInstanceAs (Decidable (b.created_at ≤ a.created_at))

instance : IsTotal Task taskGE :=
  ⟨fun a b => (Nat.le_total b.created_at a.created_at).elim Or.inl Or.inr⟩

instance : IsTrans Task taskGE :=
  ⟨fun _ _ _ hab hbc => Nat.le_trans hbc hab⟩

/-- List endpoint `GET /api/tasks`: `select(Task).where(Task.user_id == current_user_id)
.order_by(Task.created_at.desc())` — all rows owned by the caller, newest
first.  Returns a plain list, never an error. -/
def getTasks (db : List Task) (uid : String) : List Task :=
  List.insertionSort taskGE (db.filter fun t => decide (t.user_id = uid))

/-- Get endpoint `GET /api/tasks/\x7bid\x7d`: ownership lookup, `404 Task not found` when the
row is missing or owned by someone else. -/
def getTask (db : List Task) (uid tid : String) : Except CrudError Task :=
  match findOwned db uid tid with
  | none => .error .notFound
  | some t => .ok t

/-- Create endpoint `POST /api/tasks`: validate the `TaskCreate` body, then
`Task(title=..., user_id=current_user_id, status=TaskStatus.PENDING)` and
insert.  The request body carries only `title`; the owner is always stamped
from the authenticated principal, and `created_at`/`updated_at` default to
now.  Returns the created row and the new table contents. -/
def createTask (db : List Task) (uid title newId : String) (now : Nat) :
    Except CrudError (Task × List Task) :=
  match validateTitle title with
  | .error m => .error (.validationErr m)
  | .ok v =>
    let t : Task := ⟨newId, v, .pending, uid, now, now⟩
    .ok (t, db ++ [t])

/-- The `UPDATE ... WHERE id = tid` write-back issued by `session.commit()`
after mutating the fetched row: the row with that primary key is replaced. -/
def replaceById (db : List Task) (tid : String) (t' : Task) : List Task :=
  db.map fun u => if u.id = tid then t' else u

/-- Embeds `task.status = data.status` together with the `updated_at` refresh
performed by the `onupdate` hook / database trigger. -/
def statusUpdated (t : Task) (st : TaskStatus) (now : Nat) : Task :=
  { t with status := st, updated_at := now }

/-- Update endpoint `PUT /api/tasks/\x7bid\x7d` (`TaskUpdate` body): body validation (done by the
framework before the handler runs), then ownership lookup, then
`task.title = ...` with `updated_at` refreshed by the `onupdate` hook /
database trigger.  The row is rewritten in place (UPDATE by primary key). -/
def updateTitle (db : List Task) (uid tid title : String) (now : Nat) :
    Except CrudError (Task × List Task) :=
  match validateTitle title with
  | .error m => .error (.validationErr m)
  | .ok v =>
    match findOwned db uid tid with
    | none => .error .notFound
    | some t =>
      let t' : Task := { t with title := v, updated_at := now }
      .ok (t', replaceById db tid t')

/-- Patch endpoint `PATCH /api/tasks/\x7bid\x7d` (`TaskPatch` body, `status` a two-value literal,
so validity is enforced by the type): ownership lookup, then
`task.status = data.status` with `updated_at` refreshed. -/
def updateStatus (db : List Task) (uid tid : String) (st : TaskStatus) (now : Nat) :
    Except CrudError (Task × List Task) :=
  match findOwned db uid tid with
  | none => .error .notFound
  | some t =>
    let t' : Task := statusUpdated t st now
    .ok (t', replaceById db tid t')

/-- Delete endpoint `DELETE /api/tasks/\x7bid\x7d`: ownership lookup, then `session.delete(task)` —
the row with that primary key is permanently removed (no soft delete). -/
def deleteTask (db : List Task) (uid tid : String) : Except CrudError (List Task) :=
  match findOwned db uid tid with
  | none => .error .notFound
  | some _ => .ok (db.filter fun u => !decide (u.id = tid))

/-- JWT payload (claims) as produced by `create_access_token` and read by
`jwt.decode`: subject (`sub`), informational `email`, expiry `exp` as a
Unix-style timestamp. -/
structure JwtPayload where
  sub : Option String
  email : Option String
  exp : Nat
deriving DecidableEq, Repr

/-- Character-string code used by the modelled signature (stand-in for the
byte serialisation fed to the external HMAC). -/
def strCode (s : String) : Nat :=
  s.data.foldl (fun a c => a * 131 + c.toNat + 1) 7

/-- Numeric code of a payload (stand-in for its JSON serialisation). -/
def payloadCode (p : JwtPayload) : Nat :=
  (match p.sub with | none => 0 | some s => strCode s + 1) * 2 ^ 32 +
    (match p.email with | none => 0 | some s => strCode s + 1) * 2 ^ 16 + p.exp

/-- Modelled stand-in for the external `jose` HS256 signature
`HMAC(secret, payload)`.  The HMAC itself is library code outside this
repository; the claims verified here depend only on the verifier comparing
the presented signature against the one recomputed from the shared secret,
not on cryptographic properties of the hash. -/
def jwtSign (secret : String) (p : JwtPayload) : Nat :=
  strCode secret * 1000003 + payloadCode p * 31 + 1

/-- A presented compact token: either structurally well-formed (a payload
plus a signature value) or garbage that the decoder rejects outright. -/
inductive Jwt where
  | signed (payload : JwtPayload) (sig : Nat)
  | malformedTok (raw : String)
deriving DecidableEq, Repr

/-- The failure kinds the `jose` decoder signals; all are subclasses of
`JWTError`, which `get_current_user` catches uniformly. -/
inductive JWTError where
  | invalidSignature
  | expiredSignature
  | malformed
deriving DecidableEq, Repr

/-- Embeds `jose.jwt.decode(token, SECRET_KEY, algorithms=[ALGORITHM])`: reject
garbage, verify the signature against the shared secret, then check the
`exp` claim against the current time (expired when `now ≥ exp`). -/
def jwtDecode (secret : String) (now : Nat) : Jwt → Except JWTError JwtPayload
  | .malformedTok _ => .error .malformed
  | .signed p sig =>
    if sig = jwtSign secret p then
      if p.exp ≤ now then .error .expiredSignature
      else .ok p
    else .error .invalidSignature

/-- The value of the `Authorization` request header, when present: either a
`Bearer` credential or some other scheme (which fails the
`authorization.startswith("Bearer ")` check exactly like an absent header). -/
inductive AuthHeader where
  | bearer (tok : Jwt)
  | otherScheme (raw : String)
deriving DecidableEq, Repr

/-- A row of the `users` table as far as `get_current_user` consumes it. -/
structure UserRec where
  id : String
  email : String
deriving DecidableEq, Repr

/-- An `HTTPException(status_code=..., detail=...)`. -/
structure HTTPError where
  status : Nat
  detail : String
deriving DecidableEq, Repr

/-- Embeds `get_current_user` (`BETTER_AUTH_SETUP.md` lines 98-119 and
`BETTER_AUTH_JWT_STATUS.md`): reject a missing or non-Bearer header with
`401 "Not authenticated"`; decode the token (any `JWTError` — malformed, bad
signature, expired — gives `401 "Invalid token"`); reject a missing `sub`
claim with `401 "Invalid token"`; then
`db.query(User).filter(User.id == user_id).first()` and reject an unknown
user with `401 "User not found"`.  The users table is the lookup function
`udb`.  The subject-to-user step (`payload.get("sub")` followed by the
database fetch) is named separately as `principalFromPayload`. -/
def userOrNotFound : Option UserRec → Except HTTPError UserRec
  | none => .error ⟨401, "User not found"⟩
  | some u => .ok u

def principalFromPayload (udb : String → Option UserRec) (p : JwtPayload) :
    Except HTTPError UserRec :=
  match p.sub with
  | none => .error ⟨401, "Invalid token"⟩
  | some uid => userOrNotFound (udb uid)

def getCurrentUser (secret : String) (now : Nat) (udb : String → Option UserRec) :
    Option AuthHeader → Except HTTPError UserRec
  | none => .error ⟨401, "Not authenticated"⟩
  | some (.otherScheme _) => .error ⟨401, "Not authenticated"⟩
  | some (.bearer tok) =>
    match jwtDecode secret now tok with
    | .error _ => .error ⟨401, "Invalid token"⟩
    | .ok p => principalFromPayload udb p

/-- The subject a credential resolves to, if any: the `sub` claim of a
successfully decoded Bearer token.  This is the only key on which
`get_current_user` consults the users table. -/
def credentialSubject (secret : String) (now : Nat) : Option AuthHeader → Option String
  | some (.bearer tok) =>
    match jwtDecode secret now tok with
    | .ok p => p.sub
    | .error _ => none
  | _ => none

/-- Frontend view of a task (`frontend/src/types`, camel-cased fields). -/
structure FTask where
  id : String
  title : String
  status : TaskStatus
  userId : String
  createdAt : String
  updatedAt : String
deriving DecidableEq, Repr

/-- The ternary in `handleToggleTask`:
`currentStatus === 'pending' ? 'completed' : 'pending'`. -/
def oppositeStatus (cur : TaskStatus) : TaskStatus :=
  if cur = .pending then .completed else .pending

/-- One `setTasks(prev.map(task => task.id === id ? { ...task, status } : task))`
step of the dashboard's optimistic update / rollback. -/
def setStatusById (tasks : List FTask) (tid : String) (st : TaskStatus) : List FTask :=
  tasks.map fun t => if t.id = tid then { t with status := st } else t

/-- Embeds `handleToggleTask` on the path where `api.updateTask` throws: the
optimistic update to the toggled status followed by the rollback to
`currentStatus` in the catch block. -/
def rollbackAfterFailedToggle (tasks : List FTask) (tid : String) (cur : TaskStatus) :
    List FTask :=
  setStatusById (setStatusById tasks tid (oppositeStatus cur)) tid cur

/-- Client-side environment consulted by `auth.ts` / `api-client.ts`:
whether `authClient.getSession()` yields a truthy session, what
`authClient.token()` yields (`none` models a thrown error or an absent
`data.token`), and the `localStorage` entry under the key `token`
(`none` = no entry; `some ""` = an entry holding the empty string). -/
structure ClientEnv where
  sessionActive : Bool
  sessionToken : Option String
  localToken : Option String
deriving DecidableEq, Repr

/-- Embeds `auth.ts` `isAuthenticated()`: `true` if the Better Auth session is
truthy, else fall back to `getToken() !== null`, i.e. to whether a
`localStorage` entry exists (even an empty-string entry compares `!== null`). -/
def isAuthenticated (env : ClientEnv) : Bool :=
  if env.sessionActive then true else env.localToken.isSome

/-- Embeds `api-client.ts` `getToken()`: prefer `authClient.token()` when it returns
a truthy `data.token` (an empty string is falsy in JavaScript), else read
`localStorage.getItem("token")`. -/
def clientGetToken (env : ClientEnv) : Option String :=
  match env.sessionToken with
  | some t => if t = "" then env.localToken else some t
  | none => env.localToken

/-- The `Authorization` header value `apiRequest` attaches on an
authenticated call: `none` models the `if (!jwtToken)` redirect-and-throw
path (no request is sent), which fires both when no token is found and when
the token is the empty string (falsy); otherwise the header is
`Bearer <token>`. -/
def apiAuthHeader (env : ClientEnv) : Option String :=
  match clientGetToken env with
  | none => none
  | some t => if t = "" then none else some ("Bearer " ++ t)

/-! Concrete fixtures used by the witness theorems. -/

/-- A concrete task owned by principal `u1`. -/
def taskA : Task := ⟨"t1", "Buy milk", .pending, "u1", 10, 10⟩

/-- A one-row tasks table holding `taskA`. -/
def db0 : List Task := [taskA]

/-- The payload of a token issued for `u1`. -/
def payload0 : JwtPayload := ⟨some "u1", some "u1@example.com", 100⟩

/-- A validly-signed token for `u1` under the shared secret. -/
def token0 : Jwt := .signed payload0 (jwtSign "shared-secret" payload0)

/-- The `Authorization` header carrying `token0`. -/
def hdr0 : Option AuthHeader := some (.bearer token0)

/-- The `users` row for `u1`. -/
def user1 : UserRec := ⟨"u1", "u1@example.com"⟩

/-- A users table containing exactly `u1`. -/
def udb1 : String → Option UserRec := fun uid => if uid = "u1" then some user1 else none

/-- An empty users table. -/
def udbEmpty : String → Option UserRec := fun _ => none

/-- A users table agreeing with `udb1` on `u1` but differing elsewhere. -/
def udb2 : String → Option UserRec :=
  fun uid => if uid = "u1" then some user1 else some ⟨"x", "x@example.com"⟩

/-- A concrete frontend task row. -/
def ftask1 : FTask := ⟨"t1", "Buy milk", .pending, "u1", "2026-01-01", "2026-01-01"⟩

/-! Helper lemmas about the ownership lookup, the list endpoint and
`pyStrip`. -/

theorem findOwned_cons (a : Task) (as : List Task) (uid tid : String) :
    findOwned (a :: as) uid tid =
      if a.id = tid ∧ a.user_id = uid then some a else findOwned as uid tid := by
  by_cases h : a.id = tid ∧ a.user_id = uid
  · rw [if_pos h]
    exact List.find?_cons_of_pos _ (decide_eq_true h)
  · rw [if_neg h]
    exact List.find?_cons_of_neg _ (by simpa using h)

theorem findOwned_eq_none {db : List Task} {uid tid : String}
    (h : ∀ u ∈ db, u.id = tid → u.user_id ≠ uid) : findOwned db uid tid = none := by
  apply List.find?_eq_none.mpr
  intro x hx
  simp only [decide_eq_true_eq]
  rintro ⟨h1, h2⟩
  exact h x hx h1 h2

theorem findOwned_eq_some {db : List Task} {uid : String} {t : Task}
    (hmem : t ∈ db) (hown : t.user_id = uid)
    (huniq : ∀ u ∈ db, u.id = t.id → u = t) :
    findOwned db uid t.id = some t := by
  induction db with
  | nil => cases hmem
  | cons a as ih =>
    rw [findOwned_cons]
    by_cases ha : a.id = t.id
    · have hat : a = t := huniq a (List.mem_cons_self _ _) ha
      rw [if_pos ⟨ha, hat ▸ hown⟩, hat]
    · rw [if_neg (by rintro ⟨h1, _⟩; exact ha h1)]
      have hmem' : t ∈ as := by
        rcases List.mem_cons.mp hmem with h | h
        · exact absurd (h ▸ rfl) ha
        · exact h
      exact ih hmem' fun u hu hid => huniq u (List.mem_cons_of_mem _ hu) hid

theorem findOwned_replaceById {db : List Task} {uid : String} {t t' : Task}
    (hmem : t ∈ db) (hown : t.user_id = uid)
    (huniq : ∀ u ∈ db, u.id = t.id → u = t)
    (hid : t'.id = t.id) (hown' : t'.user_id = uid) :
    findOwned (replaceById db t.id t') uid t.id = some t' := by
  induction db with
  | nil => cases hmem
  | cons a as ih =>
    simp only [replaceById, List.map_cons]
    by_cases ha : a.id = t.id
    · rw [if_pos ha, findOwned_cons, if_pos ⟨hid, hown'⟩]
    · rw [if_neg ha, findOwned_cons, if_neg (by rintro ⟨h1, _⟩; exact ha h1)]
      have hmem' : t ∈ as := by
        rcases List.mem_cons.mp hmem with h | h
        · exact absurd (h ▸ rfl) ha
        · exact h
      exact ih hmem' fun u hu hid2 => huniq u (List.mem_cons_of_mem _ hu) hid2

theorem mem_getTasks {db : List Task} {uid : String} {t : Task} :
    t ∈ getTasks db uid ↔ t ∈ db ∧ t.user_id = uid := by
  unfold getTasks
  rw [(List.perm_insertionSort taskGE _).mem_iff]
  simp [List.mem_filter]

theorem getCurrentUser_decode_ok {secret : String} {now : Nat}
    (udb : String → Option UserRec) {tok : Jwt} {p : JwtPayload}
    (h : jwtDecode secret now tok = .ok p) :
    getCurrentUser secret now udb (some (.bearer tok)) =
      principalFromPayload udb p := by
  simp [getCurrentUser, h]

theorem getCurrentUser_decode_error {secret : String} {now : Nat}
    (udb : String → Option UserRec) {tok : Jwt} {err : JWTError}
    (h : jwtDecode secret now tok = .error err) :
    getCurrentUser secret now udb (some (.bearer tok)) =
      .error ⟨401, "Invalid token"⟩ := by
  simp [getCurrentUser, h]

theorem principalFromPayload_none {udb : String → Option UserRec} {p : JwtPayload}
    (h : p.sub = none) :
    principalFromPayload udb p = .error ⟨401, "Invalid token"⟩ := by
  unfold principalFromPayload
  rw [h]

theorem principalFromPayload_some {udb : String → Option UserRec} {p : JwtPayload}
    {uid : String} (h : p.sub = some uid) :
    principalFromPayload udb p = userOrNotFound (udb uid) := by
  unfold principalFromPayload
  rw [h]

theorem pyStrip_length_le (s : String) : (pyStrip s).length ≤ s.length := by
  show (((s.data.dropWhile Char.isWhitespace).reverse.dropWhile
      Char.isWhitespace).reverse).length ≤ s.data.length
  rw [List.length_reverse]
  calc ((s.data.dropWhile Char.isWhitespace).reverse.dropWhile Char.isWhitespace).length
      ≤ (s.data.dropWhile Char.isWhitespace).reverse.length :=
        (List.dropWhile_suffix _).sublist.length_le
    _ = (s.data.dropWhile Char.isWhitespace).length := List.length_reverse _
    _ ≤ s.data.length := (List.dropWhile_suffix _).sublist.length_le

theorem one_le_length_of_ne_empty {s : String} (h : s ≠ "") : 1 ≤ s.length := by
  cases s with
  | mk data =>
    cases data with
    | nil => exact absurd rfl h
    | cons a as =>
      show 1 ≤ (a :: as).length
      simp

/-! Claim theorems. -/

/-- C1: for principals `A ≠ B` and any task of `A` in the table (ids are
primary keys, hence unique), Get, UpdateTitle, UpdateStatus and Delete called
as `B` with that task's id all return `notFound` — never the task's data, and
no `Forbidden` outcome is even representable in the endpoint error type — and
the result is identical to the one produced for an id that is absent from the
table. -/
theorem ownership_isolation
    (db : List Task) (A B : String) (t : Task) (newTitle v : String)
    (st : TaskStatus) (now : Nat)
    (hAB : A ≠ B) (hmem : t ∈ db) (hown : t.user_id = A)
    (huniq : ∀ u ∈ db, u.id = t.id → u = t)
    (hv : validateTitle newTitle = .ok v) :
    getTask db B t.id = .error .notFound ∧
    updateTitle db B t.id newTitle now = .error .notFound ∧
    updateStatus db B t.id st now = .error .notFound ∧
    deleteTask db B t.id = .error .notFound ∧
    ∀ tid, (∀ u ∈ db, u.id ≠ tid) →
      getTask db B tid = getTask db B t.id ∧
      updateTitle db B tid newTitle now = updateTitle db B t.id newTitle now ∧
      updateStatus db B tid st now = updateStatus db B t.id st now ∧
      deleteTask db B tid = deleteTask db B t.id := by
  have hfo : findOwned db B t.id = none := by
    apply findOwned_eq_none
    intro u hu hid
    rw [huniq u hu hid, hown]
    exact fun h => hAB h
  refine ⟨by simp [getTask, hfo], by simp [updateTitle, hv, hfo],
    by simp [updateStatus, hfo], by simp [deleteTask, hfo], ?_⟩
  intro tid h
  have hfo2 : findOwned db B tid = none :=
    findOwned_eq_none fun u hu hid _ => h u hu hid
  exact ⟨by simp [getTask, hfo, hfo2], by simp [updateTitle, hv, hfo, hfo2],
    by simp [updateStatus, hfo, hfo2], by simp [deleteTask, hfo, hfo2]⟩

/-- C1 witness: principal `u2` against the `u1`-owned `taskA` in `db0`, plus
an id `zzz` that is absent from `db0`. -/
theorem ownership_isolation_witness :
    getTask db0 "u2" taskA.id = .error .notFound ∧
    updateTitle db0 "u2" taskA.id "New title" 11 = .error .notFound ∧
    updateStatus db0 "u2" taskA.id .completed 11 = .error .notFound ∧
    deleteTask db0 "u2" taskA.id = .error .notFound ∧
    getTask db0 "u2" "zzz" = getTask db0 "u2" taskA.id := by
  have h := ownership_isolation db0 "u1" "u2" taskA "New title" "New title"
    .completed 11 (by decide) (by decide) (by decide) (by decide) rfl
  exact ⟨h.1, h.2.1, h.2.2.1, h.2.2.2.1, (h.2.2.2.2 "zzz" (by decide)).1⟩

/-- C2: whenever `createTask` succeeds, the created row's `user_id` is the
authenticated principal's subject id — the `TaskCreate` body carries only a
title, so no caller-supplied identifier can influence it — and its status is
`pending`. -/
theorem create_sets_owner_and_pending
    (db : List Task) (uid title newId : String) (now : Nat) (t : Task)
    (db' : List Task)
    (h : createTask db uid title newId now = .ok (t, db')) :
    t.user_id = uid ∧ t.status = .pending := by
  unfold createTask at h
  cases hv : validateTitle title with
  | error m => rw [hv] at h; cases h
  | ok v =>
    rw [hv] at h
    injection h with h1
    injection h1 with h2 h3
    rw [← h2]
    exact ⟨rfl, rfl⟩

/-- C2 witness: a concrete successful create as `u1`. -/
theorem create_sets_owner_and_pending_witness :
    (⟨"t9", "Buy milk", .pending, "u1", 5, 5⟩ : Task).user_id = "u1" ∧
    (⟨"t9", "Buy milk", .pending, "u1", 5, 5⟩ : Task).status = .pending :=
  create_sets_owner_and_pending [] "u1" "Buy milk" "t9" 5 _ _ rfl

/-- C6: after a successful `deleteTask`, the record is gone for good: a
second delete of the same id returns `notFound` (not a silent success), and
the task list for the owner no longer contains any task with that id. -/
theorem delete_finality (db : List Task) (uid tid : String) (db' : List Task)
    (h : deleteTask db uid tid = .ok db') :
    deleteTask db' uid tid = .error .notFound ∧
    ∀ t ∈ getTasks db' uid, t.id ≠ tid := by
  have hdb' : db' = db.filter fun u => !decide (u.id = tid) := by
    unfold deleteTask at h
    cases hfo : findOwned db uid tid with
    | none => rw [hfo] at h; cases h
    | some t => rw [hfo] at h; injection h with h1; exact h1.symm
  have hno : ∀ u ∈ db', u.id ≠ tid := by
    intro u hu
    rw [hdb'] at hu
    simpa using (List.mem_filter.mp hu).2
  constructor
  · unfold deleteTask
    rw [findOwned_eq_none fun u hu hid _ => hno u hu hid]
  · intro t ht
    exact hno t (mem_getTasks.mp ht).1

/-- C6 witness: deleting `taskA` from `db0` as its owner leaves the empty
table, on which a second delete of the same id returns `notFound`. -/
theorem delete_finality_witness :
    deleteTask ([] : List Task) "u1" taskA.id = .error CrudError.notFound :=
  (delete_finality db0 "u1" taskA.id [] rfl).1

/-- C7: the list endpoint returns exactly the rows whose `user_id` is the
caller's subject id (a permutation of the owner-filtered table), pairwise
ordered newest first by `created_at`, and returns the empty list — the
return type admits no error — when the caller owns no tasks. -/
theorem list_owner_scoped_sorted (db : List Task) (uid : String) :
    (getTasks db uid).Perm (db.filter fun t => decide (t.user_id = uid)) ∧
    List.Sorted taskGE (getTasks db uid) ∧
    ((∀ t ∈ db, t.user_id ≠ uid) → getTasks db uid = []) := by
  refine ⟨List.perm_insertionSort _ _, List.sorted_insertionSort _ _, ?_⟩
  intro h
  unfold getTasks
  rw [List.filter_eq_nil_iff.mpr (by intro a ha; simpa using h a ha)]
  rfl

/-- C7 witness: `u2` owns nothing in `db0`, so the list is empty. -/
theorem list_owner_scoped_sorted_witness : getTasks db0 "u2" = [] :=
  (list_owner_scoped_sorted db0 "u2").2.2 (by decide)

/-- C5: the title pipeline of Create and UpdateTitle normalizes by trimming
surrounding whitespace; an empty or whitespace-only title always fails
validation, as does a title whose trimmed form exceeds 500 characters; and
any title persisted through a successful `createTask` or `updateTitle` is the
trimmed input with length between 1 and 500. -/
theorem title_validation_spec (title : String) :
    (∀ v, validateTitle title = .ok v →
      v = pyStrip title ∧ 1 ≤ v.length ∧ v.length ≤ 500) ∧
    (pyStrip title = "" → ∃ m, validateTitle title = .error m) ∧
    (500 < (pyStrip title).length → ∃ m, validateTitle title = .error m) ∧
    (∀ db uid newId now t db', createTask db uid title newId now = .ok (t, db') →
      t.title = pyStrip title ∧ 1 ≤ t.title.length ∧ t.title.length ≤ 500) ∧
    (∀ db uid tid now t db', updateTitle db uid tid title now = .ok (t, db') →
      t.title = pyStrip title ∧ 1 ≤ t.title.length ∧ t.title.length ≤ 500) := by
  have main : ∀ v, validateTitle title = .ok v →
      v = pyStrip title ∧ 1 ≤ v.length ∧ v.length ≤ 500 := by
    intro v h
    by_cases h1 : title.length < 1
    · simp [validateTitle, h1] at h
    · by_cases h2 : 500 < title.length
      · simp [validateTitle, h1, h2] at h
      · by_cases h3 : pyStrip title = ""
        · simp [validateTitle, h1, h2, h3] at h
        · simp only [validateTitle, if_neg h1, if_neg h2, if_neg h3] at h
          injection h with hv
          refine ⟨hv.symm, ?_, ?_⟩
          · rw [← hv]
            exact one_le_length_of_ne_empty h3
          · rw [← hv]
            exact le_trans (pyStrip_length_le title) (by omega)
  refine ⟨main, ?_, ?_, ?_, ?_⟩
  · intro h3
    by_cases h1 : title.length < 1
    · exact ⟨"ensure this value has at least 1 characters", by simp [validateTitle, h1]⟩
    · by_cases h2 : 500 < title.length
      · exact ⟨"ensure this value has at most 500 characters",
          by simp [validateTitle, h1, h2]⟩
      · exact ⟨"Title cannot be empty or whitespace only",
          by simp [validateTitle, h1, h2, h3]⟩
  · intro h500
    have h2 : 500 < title.length := lt_of_lt_of_le h500 (pyStrip_length_le title)
    have h1 : ¬ title.length < 1 := by omega
    exact ⟨"ensure this value has at most 500 characters",
      by simp [validateTitle, h1, h2]⟩
  · intro db uid newId now t db' h
    unfold createTask at h
    cases hv : validateTitle title with
    | error m => rw [hv] at h; cases h
    | ok v =>
      rw [hv] at h
      injection h with h1
      injection h1 with h2 h3
      have := main v hv
      rw [← h2]
      exact this
  · intro db uid tid now t db' h
    unfold updateTitle at h
    cases hv : validateTitle title with
    | error m => rw [hv] at h; cases h
    | ok v =>
      rw [hv] at h
      cases hfo : findOwned db uid tid with
      | none => rw [hfo] at h; cases h
      | some t0 =>
        rw [hfo] at h
        injection h with h1
        injection h1 with h2 h3
        have := main v hv
        rw [← h2]
        exact this

/-- C5 witness: the padded title from P3 normalizes to its trimmed form with
an in-range length. -/
theorem title_validation_spec_witness :
    ("My task" : String) = pyStrip "  My task  " ∧
    1 ≤ ("My task" : String).length ∧ ("My task" : String).length ≤ 500 :=
  (title_validation_spec "  My task  ").1 "My task" rfl

/-- C8: for a caller-owned task with status `pending` (ids unique), updating
the status to `completed` and then back to `pending` succeeds both times,
restores the original status, leaves `title` and `user_id` unchanged, and
refreshes `updated_at` on each of the two calls. -/
theorem status_roundtrip (db : List Task) (uid : String) (t : Task) (n1 n2 : Nat)
    (hmem : t ∈ db) (hown : t.user_id = uid)
    (huniq : ∀ u ∈ db, u.id = t.id → u = t) (hst : t.status = .pending) :
    updateStatus db uid t.id .completed n1 =
      .ok (statusUpdated t .completed n1,
        replaceById db t.id (statusUpdated t .completed n1)) ∧
    updateStatus (replaceById db t.id (statusUpdated t .completed n1)) uid t.id
        .pending n2 =
      .ok (statusUpdated (statusUpdated t .completed n1) .pending n2,
        replaceById (replaceById db t.id (statusUpdated t .completed n1)) t.id
          (statusUpdated (statusUpdated t .completed n1) .pending n2)) ∧
    (statusUpdated t .completed n1).updated_at = n1 ∧
    (statusUpdated (statusUpdated t .completed n1) .pending n2).updated_at = n2 ∧
    (statusUpdated (statusUpdated t .completed n1) .pending n2).status = t.status ∧
    (statusUpdated (statusUpdated t .completed n1) .pending n2).title = t.title ∧
    (statusUpdated (statusUpdated t .completed n1) .pending n2).user_id = t.user_id := by
  have h1 : findOwned db uid t.id = some t := findOwned_eq_some hmem hown huniq
  have h2 : findOwned (replaceById db t.id (statusUpdated t .completed n1)) uid t.id =
      some (statusUpdated t .completed n1) :=
    findOwned_replaceById hmem hown huniq rfl hown
  refine ⟨by simp [updateStatus, h1], by simp [updateStatus, h2], rfl, rfl, ?_, rfl, rfl⟩
  rw [hst]
  rfl

/-- C8 witness: the round trip on `taskA` in `db0` as owner `u1` at times
11 and 12. -/
theorem status_roundtrip_witness :
    (statusUpdated (statusUpdated taskA .completed 11) .pending 12).status =
      taskA.status ∧
    (statusUpdated taskA .completed 11).updated_at = 11 ∧
    (statusUpdated (statusUpdated taskA .completed 11) .pending 12).updated_at = 12 := by
  have h := status_roundtrip db0 "u1" taskA 11 12 (by decide) (by decide)
    (by decide) (by decide)
  exact ⟨h.2.2.2.2.1, h.2.2.1, h.2.2.2.1⟩

/-- C3 counterexample: two runs of `get_current_user` with the same
credential, the same current time and the same shared secret return different
results when the users table differs, so verification is not a function of
exactly (credential, time, secret): the code performs a
`db.query(User).filter(User.id == user_id).first()` lookup. -/
theorem token_verification_not_pure_cex :
    getCurrentUser "shared-secret" 0 udb1 hdr0 = .ok user1 ∧
    getCurrentUser "shared-secret" 0 udbEmpty hdr0 = .error ⟨401, "User not found"⟩ ∧
    (Except.ok user1 : Except HTTPError UserRec) ≠
      .error ⟨401, "User not found"⟩ := by
  refine ⟨rfl, rfl, ?_⟩
  intro h
  cases h

/-- C3 amended: `get_current_user` is a deterministic function of the
credential, the current time, the shared secret AND the users table, and it
consults the table only through the lookup of the credential's own subject:
two runs with the same credential, time and secret agree whenever the two
tables agree on that one subject. -/
theorem token_verification_db_dependence
    (secret : String) (now : Nat) (udb udb' : String → Option UserRec)
    (ah : Option AuthHeader)
    (hdb : ∀ uid, credentialSubject secret now ah = some uid → udb uid = udb' uid) :
    getCurrentUser secret now udb ah = getCurrentUser secret now udb' ah := by
  match ah with
  | none => rfl
  | some (.otherScheme r) => rfl
  | some (.bearer tok) =>
    cases hjd : jwtDecode secret now tok with
    | error e =>
      rw [getCurrentUser_decode_error udb hjd, getCurrentUser_decode_error udb' hjd]
    | ok p =>
      rw [getCurrentUser_decode_ok udb hjd, getCurrentUser_decode_ok udb' hjd]
      cases hsub : p.sub with
      | none => rw [principalFromPayload_none hsub, principalFromPayload_none hsub]
      | some uid =>
        have heq := hdb uid (by simp [credentialSubject, hjd, hsub])
        rw [principalFromPayload_some hsub, principalFromPayload_some hsub, heq]

/-- C3 amended witness: `udb1` and `udb2` agree on subject `u1`, so the run
of `get_current_user` on `token0` gives the same result over both. -/
theorem token_verification_db_dependence_witness :
    getCurrentUser "shared-secret" 0 udb1 hdr0 =
      getCurrentUser "shared-secret" 0 udb2 hdr0 :=
  token_verification_db_dependence "shared-secret" 0 udb1 udb2 hdr0 (by
    intro uid h
    have h2 : some "u1" = some uid := h
    cases h2
    rfl)

/-- C4 counterexample: a missing credential and a malformed credential both
map to status 401, but with different messages — `Not authenticated` versus
`Invalid token` — so the message is not uniform across the four
verification-failure sub-reasons. -/
theorem auth_failure_message_not_uniform_cex :
    getCurrentUser "shared-secret" 0 udb1 none = .error ⟨401, "Not authenticated"⟩ ∧
    getCurrentUser "shared-secret" 0 udb1 (some (.bearer (.malformedTok "garbage"))) =
      .error ⟨401, "Invalid token"⟩ ∧
    ("Not authenticated" : String) ≠ "Invalid token" :=
  ⟨rfl, rfl, by decide⟩

/-- C4 amended: every verification failure of `get_current_user` carries
transport status 401; the malformed-credential, bad-signature and expired
sub-reasons (every `JWTError`) share the single uniform message
`Invalid token`; but a missing or non-Bearer credential yields the distinct
message `Not authenticated`. -/
theorem auth_failures_all_401_with_messages :
    (∀ (secret : String) (now : Nat) (udb : String → Option UserRec)
        (ah : Option AuthHeader) (e : HTTPError),
        getCurrentUser secret now udb ah = .error e → e.status = 401) ∧
    (∀ (secret : String) (now : Nat) (udb : String → Option UserRec) (tok : Jwt)
        (err : JWTError), jwtDecode secret now tok = .error err →
        getCurrentUser secret now udb (some (.bearer tok)) =
          .error ⟨401, "Invalid token"⟩) ∧
    (∀ (secret : String) (now : Nat) (udb : String → Option UserRec),
        getCurrentUser secret now udb none = .error ⟨401, "Not authenticated"⟩) := by
  refine ⟨?_, ?_, fun _ _ _ => rfl⟩
  · intro secret now udb ah e h
    match ah with
    | none =>
      injection h with h1
      rw [← h1]
    | some (.otherScheme r) =>
      injection h with h1
      rw [← h1]
    | some (.bearer tok) =>
      cases hjd : jwtDecode secret now tok with
      | error err =>
        rw [getCurrentUser_decode_error udb hjd] at h
        injection h with h1
        rw [← h1]
      | ok p =>
        rw [getCurrentUser_decode_ok udb hjd] at h
        cases hsub : p.sub with
        | none =>
          rw [principalFromPayload_none hsub] at h
          injection h with h1
          rw [← h1]
        | some uid =>
          rw [principalFromPayload_some hsub] at h
          cases hu : udb uid with
          | none =>
            rw [hu] at h
            simp only [userOrNotFound] at h
            injection h with h1
            rw [← h1]
          | some u =>
            rw [hu] at h
            simp only [userOrNotFound] at h
            cases h
  · intro secret now udb tok err hjd
    simp [getCurrentUser, hjd]

/-- C4 amended witness: a malformed token gets the uniform `Invalid token`
message with status 401. -/
theorem auth_failures_all_401_witness :
    (⟨401, "Invalid token"⟩ : HTTPError).status = 401 ∧
    getCurrentUser "shared-secret" 0 udb1 (some (.bearer (.malformedTok "zz"))) =
      .error ⟨401, "Invalid token"⟩ :=
  ⟨auth_failures_all_401_with_messages.1 "shared-secret" 0 udb1
      (some (.bearer (.malformedTok "zz"))) ⟨401, "Invalid token"⟩ rfl,
    auth_failures_all_401_with_messages.2.1 "shared-secret" 0 udb1
      (.malformedTok "zz") .malformed rfl⟩

/-- C9: when `api.updateTask` fails, `handleToggleTask`'s catch block maps
the toggled task back to `currentStatus`; provided `currentStatus` is indeed
the status the task with that id had in the displayed list (which is how the
handler is invoked), the optimistic update followed by the rollback restores
the list exactly as it was before the operation. -/
theorem toggle_rollback_restores (tasks : List FTask) (tid : String)
    (cur : TaskStatus) (h : ∀ t ∈ tasks, t.id = tid → t.status = cur) :
    rollbackAfterFailedToggle tasks tid cur = tasks := by
  simp only [rollbackAfterFailedToggle, setStatusById, List.map_map]
  induction tasks with
  | nil => rfl
  | cons a as ih =>
    have hh : ∀ t ∈ as, t.id = tid → t.status = cur :=
      fun t ht => h t (List.mem_cons_of_mem _ ht)
    have ha := h a (List.mem_cons_self _ _)
    simp only [List.map_cons, List.cons.injEq]
    refine ⟨?_, ih hh⟩
    obtain ⟨aid, atitle, ast, auser, acr, aup⟩ := a
    by_cases hid : aid = tid
    · have hst : ast = cur := ha hid
      simp [Function.comp, hid, hst]
    · simp [Function.comp, hid]

/-- C9 witness: a failed toggle of the pending `ftask1` leaves the
single-task list unchanged. -/
theorem toggle_rollback_restores_witness :
    rollbackAfterFailedToggle [ftask1] "t1" .pending = [ftask1] :=
  toggle_rollback_restores [ftask1] "t1" .pending (by decide)

/-- C10 counterexample: with no Better Auth session and an empty-string
`token` entry in localStorage, `isAuthenticated()` resolves to `true`, but
`apiRequest` attaches no Bearer credential at all — `if (!jwtToken)`
redirects to login and throws on the falsy empty string — so the claim that
the stored value is always attached as the Bearer credential fails. -/
theorem local_token_cex :
    isAuthenticated ⟨false, none, some ""⟩ = true ∧
    apiAuthHeader ⟨false, none, some ""⟩ = none ∧
    (none : Option String) ≠ some ("Bearer " ++ "") := by
  refine ⟨rfl, rfl, ?_⟩
  intro h
  cases h

/-- C10 amended: whenever a NON-EMPTY `token` entry exists in localStorage
and no Better Auth session or token is available, `isAuthenticated()`
resolves to `true` and the API client attaches the stored value as the
Bearer credential — the stored string is never verified client-side.  (An
empty-string entry still makes `isAuthenticated()` true, but the client then
redirects instead of attaching it.) -/
theorem local_token_authority (s : String) (env : ClientEnv)
    (hsess : env.sessionActive = false) (htok : env.sessionToken = none)
    (hloc : env.localToken = some s) (hns : s ≠ "") :
    isAuthenticated env = true ∧ apiAuthHeader env = some ("Bearer " ++ s) := by
  obtain ⟨sa, stk, lt⟩ := env
  simp only at hsess htok hloc
  subst hsess
  subst htok
  subst hloc
  constructor
  · simp [isAuthenticated]
  · simp [apiAuthHeader, clientGetToken, hns]

/-- C10 amended witness: the stored token `tok123` is attached verbatim. -/
theorem local_token_authority_witness :
    isAuthenticated ⟨false, none, some "tok123"⟩ = true ∧
    apiAuthHeader ⟨false, none, some "tok123"⟩ = some ("Bearer " ++ "tok123") :=
  local_token_authority "tok123" ⟨false, none, some "tok123"⟩ rfl rfl rfl (by decide)

end TaskMaster
